import Mathlib

/-!
Verification of the go-winjob library: a shallow embedding of the job-object
limit protocol (job_object.go, limits.go, limits_ui.go, the CPU limit file)
and of the notification subsystem (the Subscription/Port file), together with
theorems settling the specification claims.

Machine integers are modelled as `Nat` (all the flag fields are `uint32` in
the source; bitwise operations `|||`, `&&&`, `^^^` act on arbitrary `Nat`,
and theorems that depend on the 32-bit width carry an explicit `< 2 ^ 32`
hypothesis).  Go's bit-clear operator `x &^ y` on `uint32` is embedded as
`andNot32`.  Calls into the operating system are embedded as explicit state
passing: the OS-side job information is a `JobInfo` value, a query copies one
block of it into the in-process cache, and a write-back copies the cached
block out; each such call is recorded in an event trace.
-/

namespace Winjob

/-- Go's `x &^ y` for `uint32` operands: clear in `x` every bit set in `y`. -/
def andNot32 (x y : Nat) : Nat := x &&& (y ^^^ (2 ^ 32 - 1))

/-- IO_COUNTERS of jobapi (I/O accounting information). -/
structure IO_COUNTERS where
  ReadOperationCount : Nat
  WriteOperationCount : Nat
  OtherOperationCount : Nat
  ReadTransferCount : Nat
  WriteTransferCount : Nat
  OtherTransferCount : Nat
deriving DecidableEq

/-- JOBOBJECT_BASIC_LIMIT_INFORMATION of jobapi. -/
structure JOBOBJECT_BASIC_LIMIT_INFORMATION where
  PerProcessUserTimeLimit : Int
  PerJobUserTimeLimit : Int
  LimitFlags : Nat
  MinimumWorkingSetSize : Nat
  MaximumWorkingSetSize : Nat
  ActiveProcessLimit : Nat
  Affinity : Nat
  PriorityClass : Nat
  SchedulingClass : Nat
deriving DecidableEq

/-- JOBOBJECT_EXTENDED_LIMIT_INFORMATION of jobapi. -/
structure JOBOBJECT_EXTENDED_LIMIT_INFORMATION where
  BasicLimitInformation : JOBOBJECT_BASIC_LIMIT_INFORMATION
  IoInfo : IO_COUNTERS
  ProcessMemoryLimit : Nat
  JobMemoryLimit : Nat
  PeakProcessMemoryUsed : Nat
  PeakJobMemoryUsed : Nat
deriving DecidableEq

/-- JOBOBJECT_BASIC_UI_RESTRICTIONS of jobapi. -/
structure JOBOBJECT_BASIC_UI_RESTRICTIONS where
  UIRestrictionsClass : Nat
deriving DecidableEq

/-- JOBOBJECT_BASIC_ACCOUNTING_INFORMATION of jobapi. -/
structure JOBOBJECT_BASIC_ACCOUNTING_INFORMATION where
  TotalUserTime : Nat
  TotalKernelTime : Nat
  ThisPeriodTotalUserTime : Nat
  ThisPeriodTotalKernelTime : Nat
  TotalPageFaultCount : Nat
  TotalProcesses : Nat
  ActiveProcesses : Nat
  TotalTerminatedProcesses : Nat
deriving DecidableEq

/-- JOBOBJECT_BASIC_AND_IO_ACCOUNTING_INFORMATION of jobapi.  The two Go
fields are anonymous (promoted); here they are named `BasicInfo` and
`IoInfo`. -/
structure JOBOBJECT_BASIC_AND_IO_ACCOUNTING_INFORMATION where
  BasicInfo : JOBOBJECT_BASIC_ACCOUNTING_INFORMATION
  IoInfo : IO_COUNTERS
deriving DecidableEq

/-- JOBOBJECT_CPU_RATE_CONTROL_INFORMATION of jobapi (the union is a single
`Value` member, as in the source). -/
structure JOBOBJECT_CPU_RATE_CONTROL_INFORMATION where
  ControlFlags : Nat
  Value : Nat
deriving DecidableEq

/-- JOBOBJECT_NET_RATE_CONTROL_INFORMATION of jobapi. -/
structure JOBOBJECT_NET_RATE_CONTROL_INFORMATION where
  MaxBandwidth : Nat
  ControlFlags : Nat
  DscpTag : Nat
deriving DecidableEq

/-- JobInfo of job_object.go: the cached copy of the five info blocks. -/
structure JobInfo where
  ExtendedLimits : JOBOBJECT_EXTENDED_LIMIT_INFORMATION
  UIRestrictions : JOBOBJECT_BASIC_UI_RESTRICTIONS
  AccountingInfo : JOBOBJECT_BASIC_AND_IO_ACCOUNTING_INFORMATION
  CPURateControl : JOBOBJECT_CPU_RATE_CONTROL_INFORMATION
  NetRateControl : JOBOBJECT_NET_RATE_CONTROL_INFORMATION
deriving DecidableEq

/-- Go zero value `JobInfo{}`. -/
def JobInfo.zero : JobInfo :=
  { ExtendedLimits :=
      { BasicLimitInformation :=
          { PerProcessUserTimeLimit := 0, PerJobUserTimeLimit := 0, LimitFlags := 0,
            MinimumWorkingSetSize := 0, MaximumWorkingSetSize := 0, ActiveProcessLimit := 0,
            Affinity := 0, PriorityClass := 0, SchedulingClass := 0 },
        IoInfo :=
          { ReadOperationCount := 0, WriteOperationCount := 0, OtherOperationCount := 0,
            ReadTransferCount := 0, WriteTransferCount := 0, OtherTransferCount := 0 },
        ProcessMemoryLimit := 0, JobMemoryLimit := 0,
        PeakProcessMemoryUsed := 0, PeakJobMemoryUsed := 0 },
    UIRestrictions := { UIRestrictionsClass := 0 },
    AccountingInfo :=
      { BasicInfo :=
          { TotalUserTime := 0, TotalKernelTime := 0, ThisPeriodTotalUserTime := 0,
            ThisPeriodTotalKernelTime := 0, TotalPageFaultCount := 0, TotalProcesses := 0,
            ActiveProcesses := 0, TotalTerminatedProcesses := 0 },
        IoInfo :=
          { ReadOperationCount := 0, WriteOperationCount := 0, OtherOperationCount := 0,
            ReadTransferCount := 0, WriteTransferCount := 0, OtherTransferCount := 0 } },
    CPURateControl := { ControlFlags := 0, Value := 0 },
    NetRateControl := { MaxBandwidth := 0, ControlFlags := 0, DscpTag := 0 } }

/-- JobObject of job_object.go: name, OS handle and the cached `JobInfo`
(the Go struct embeds `JobInfo` anonymously; here the field is `info`). -/
structure JobObject where
  Name : String
  Handle : Nat
  info : JobInfo
deriving DecidableEq

/-! Limit flag constants of jobapi (each is `1 << iota` in the source). -/

def JOB_OBJECT_LIMIT_WORKINGSET : Nat := 2 ^ 0
def JOB_OBJECT_LIMIT_PROCESS_TIME : Nat := 2 ^ 1
def JOB_OBJECT_LIMIT_JOB_TIME : Nat := 2 ^ 2
def JOB_OBJECT_LIMIT_ACTIVE_PROCESS : Nat := 2 ^ 3
def JOB_OBJECT_LIMIT_AFFINITY : Nat := 2 ^ 4
def JOB_OBJECT_LIMIT_PRIORITY_CLASS : Nat := 2 ^ 5
def JOB_OBJECT_LIMIT_PRESERVE_JOB_TIME : Nat := 2 ^ 6
def JOB_OBJECT_LIMIT_SCHEDULING_CLASS : Nat := 2 ^ 7
def JOB_OBJECT_LIMIT_PROCESS_MEMORY : Nat := 2 ^ 8
def JOB_OBJECT_LIMIT_JOB_MEMORY : Nat := 2 ^ 9
def JOB_OBJECT_LIMIT_DIE_ON_UNHANDLED_EXCEPTION : Nat := 2 ^ 10
def JOB_OBJECT_LIMIT_BREAKAWAY_OK : Nat := 2 ^ 11
def JOB_OBJECT_LIMIT_SILENT_BREAKAWAY_OK : Nat := 2 ^ 12
def JOB_OBJECT_LIMIT_KILL_ON_JOB_CLOSE : Nat := 2 ^ 13
def JOB_OBJECT_LIMIT_SUBSET_AFFINITY : Nat := 2 ^ 14

def JOB_OBJECT_UILIMIT_HANDLES : Nat := 2 ^ 0
def JOB_OBJECT_UILIMIT_READCLIPBOARD : Nat := 2 ^ 1
def JOB_OBJECT_UILIMIT_WRITECLIPBOARD : Nat := 2 ^ 2
def JOB_OBJECT_UILIMIT_SYSTEMPARAMETERS : Nat := 2 ^ 3
def JOB_OBJECT_UILIMIT_DISPLAYSETTINGS : Nat := 2 ^ 4
def JOB_OBJECT_UILIMIT_GLOBALATOMS : Nat := 2 ^ 5
def JOB_OBJECT_UILIMIT_DESKTOP : Nat := 2 ^ 6
def JOB_OBJECT_UILIMIT_EXITWINDOWS : Nat := 2 ^ 7

def JOB_OBJECT_CPU_RATE_CONTROL_ENABLE : Nat := 2 ^ 0
def JOB_OBJECT_CPU_RATE_CONTROL_WEIGHT_BASED : Nat := 2 ^ 1
def JOB_OBJECT_CPU_RATE_CONTROL_HARD_CAP : Nat := 2 ^ 2
def JOB_OBJECT_CPU_RATE_CONTROL_NOTIFY : Nat := 2 ^ 3
def JOB_OBJECT_CPU_RATE_CONTROL_MIN_MAX_RATE : Nat := 2 ^ 4

def JOB_OBJECT_NET_RATE_CONTROL_ENABLE : Nat := 2 ^ 0
def JOB_OBJECT_NET_RATE_CONTROL_MAX_BANDWIDTH : Nat := 2 ^ 1
def JOB_OBJECT_NET_RATE_CONTROL_DSCP_TAG : Nat := 2 ^ 2

/-- CPURate of the CPU limit file. -/
structure CPURate where
  Min : Nat
  Max : Nat
  Weight : Nat
  HardCap : Nat
deriving DecidableEq

/-- Limit: the closed set of limit variants of limits.go, limits_ui.go, the
CPU limit file and the network limit file.  Each variant carries exactly the
data of the corresponding Go struct (the embedded `basicLimit` is the `flag`
argument). -/
inductive Limit where
  | basicLimit (flag : Nat)
  | affinityLimit (flag : Nat) (affinity : Nat)
  | jobMemoryLimit (flag : Nat) (jobMemory : Nat)
  | jobTimeLimit (flag : Nat) (jobTime : Int)
  | processMemoryLimit (flag : Nat) (processMemory : Nat)
  | processTimeLimit (flag : Nat) (processTime : Int)
  | activeProcessLimit (flag : Nat) (procs : Nat)
  | workingSetLimit (flag : Nat) (wsMin : Nat) (wsMax : Nat)
  | priorityClassLimit (flag : Nat) (prio : Nat)
  | schedulingClassLimit (flag : Nat) (schedClass : Nat)
  | uiRestriction (r : Nat)
  | cpuLimit (rate : CPURate)
  | netBandwidthLimit (maxBandwidth : Nat)
  | netDSCPTagLimit (tag : Nat)
deriving DecidableEq

/-! Singleton limit constants of limits.go and limits_ui.go. -/

def LimitBreakawayOK : Limit := .basicLimit JOB_OBJECT_LIMIT_BREAKAWAY_OK
def LimitDieOnUnhandledException : Limit := .basicLimit JOB_OBJECT_LIMIT_DIE_ON_UNHANDLED_EXCEPTION
def LimitKillOnJobClose : Limit := .basicLimit JOB_OBJECT_LIMIT_KILL_ON_JOB_CLOSE
def LimitPreserveJobTime : Limit := .basicLimit JOB_OBJECT_LIMIT_PRESERVE_JOB_TIME
def LimitSubsetAffinity : Limit := .basicLimit JOB_OBJECT_LIMIT_SUBSET_AFFINITY
def LimitSilentBreakawayOK : Limit := .basicLimit JOB_OBJECT_LIMIT_SILENT_BREAKAWAY_OK

def LimitDesktop : Limit := .uiRestriction JOB_OBJECT_UILIMIT_DESKTOP
def LimitDisplaySettings : Limit := .uiRestriction JOB_OBJECT_UILIMIT_DISPLAYSETTINGS
def LimitExitWindows : Limit := .uiRestriction JOB_OBJECT_UILIMIT_EXITWINDOWS
def LimitGlobalAtoms : Limit := .uiRestriction JOB_OBJECT_UILIMIT_GLOBALATOMS
def LimitHandles : Limit := .uiRestriction JOB_OBJECT_UILIMIT_HANDLES
def LimitSystemParameters : Limit := .uiRestriction JOB_OBJECT_UILIMIT_SYSTEMPARAMETERS
def LimitWriteClipboard : Limit := .uiRestriction JOB_OBJECT_UILIMIT_WRITECLIPBOARD
def LimitReadClipboard : Limit := .uiRestriction JOB_OBJECT_UILIMIT_READCLIPBOARD

/-! CPU limit constructors of the CPU limit file. -/

def WithCPUHardCapLimit (v : Nat) : Limit :=
  .cpuLimit { Min := 0, Max := 0, Weight := 0, HardCap := v }

def WithCPUWeightedLimit (v : Nat) : Limit :=
  .cpuLimit { Min := 0, Max := 0, Weight := v, HardCap := 0 }

def WithCPUMinMaxLimit (mn mx : Nat) : Limit :=
  .cpuLimit { Min := mn, Max := mx, Weight := 0, HardCap := 0 }

/-- basicLimit.set: `LimitFlags |= flag` on the cached extended-limits
block. -/
def basicSet (flag : Nat) (job : JobObject) : JobObject :=
  { job with info.ExtendedLimits.BasicLimitInformation.LimitFlags :=
      job.info.ExtendedLimits.BasicLimitInformation.LimitFlags ||| flag }

/-- basicLimit.reset: `LimitFlags &^= flag`. -/
def basicReset (flag : Nat) (job : JobObject) : JobObject :=
  { job with info.ExtendedLimits.BasicLimitInformation.LimitFlags :=
      andNot32 job.info.ExtendedLimits.BasicLimitInformation.LimitFlags flag }

/-- cpuLimit.set: the three sub-mode cases of the Go switch, evaluated in
source order (`HardCap > 0`, then `Weight > 0`, then `Max > 0`); the min/max
pair is packed little-endian as two 16-bit halves of the 32-bit `Value`.
When no case matches, `Value` is left unchanged and no sub-mode flag is
chosen.  `ControlFlags` is overwritten with the chosen sub-mode flag plus the
enable and notify bits. -/
def cpuSet (l : CPURate) (job : JobObject) : JobObject :=
  let vf : Nat × Nat :=
    if 0 < l.HardCap then (l.HardCap, JOB_OBJECT_CPU_RATE_CONTROL_HARD_CAP)
    else if 0 < l.Weight then (l.Weight, JOB_OBJECT_CPU_RATE_CONTROL_WEIGHT_BASED)
    else if 0 < l.Max then (l.Min + 65536 * l.Max, JOB_OBJECT_CPU_RATE_CONTROL_MIN_MAX_RATE)
    else (job.info.CPURateControl.Value, 0)
  { job with
      info.CPURateControl.Value := vf.1,
      info.CPURateControl.ControlFlags :=
        vf.2 ||| JOB_OBJECT_CPU_RATE_CONTROL_ENABLE ||| JOB_OBJECT_CPU_RATE_CONTROL_NOTIFY }

/-- cpuLimit.LimitValue: decode the cached CPU-rate block, testing the
sub-mode bits in source order; the min/max case splits `Value` into its two
little-endian 16-bit halves. -/
def cpuLimitValue (job : JobObject) : CPURate :=
  if 0 < job.info.CPURateControl.ControlFlags &&& JOB_OBJECT_CPU_RATE_CONTROL_HARD_CAP then
    { Min := 0, Max := 0, Weight := 0, HardCap := job.info.CPURateControl.Value }
  else if 0 < job.info.CPURateControl.ControlFlags &&& JOB_OBJECT_CPU_RATE_CONTROL_WEIGHT_BASED then
    { Min := 0, Max := 0, Weight := job.info.CPURateControl.Value, HardCap := 0 }
  else if 0 < job.info.CPURateControl.ControlFlags &&& JOB_OBJECT_CPU_RATE_CONTROL_MIN_MAX_RATE then
    { Min := job.info.CPURateControl.Value % 65536,
      Max := job.info.CPURateControl.Value / 65536 % 65536, Weight := 0, HardCap := 0 }
  else { Min := 0, Max := 0, Weight := 0, HardCap := 0 }

/-- Modelled from the spec: the repository file defining the network limits
(`netBandwidthLimit`, `netDSCPTagLimit`) is not under src (only callers and
`resolveRequiredInfoClass` mention them).  The spec describes them as
"network limits (bandwidth ceiling, DSCP tag — independently settable bits of
one control block)"; accordingly the bandwidth limit stores the ceiling and
sets the enable and max-bandwidth control bits. -/
def netBandwidthSet (bw : Nat) (job : JobObject) : JobObject :=
  { job with
      info.NetRateControl.MaxBandwidth := bw,
      info.NetRateControl.ControlFlags :=
        job.info.NetRateControl.ControlFlags |||
          (JOB_OBJECT_NET_RATE_CONTROL_ENABLE ||| JOB_OBJECT_NET_RATE_CONTROL_MAX_BANDWIDTH) }

/-- Modelled from the spec: clearing the bandwidth ceiling clears its control
bit (independently settable bits of one control block). -/
def netBandwidthReset (job : JobObject) : JobObject :=
  { job with info.NetRateControl.ControlFlags :=
      andNot32 job.info.NetRateControl.ControlFlags JOB_OBJECT_NET_RATE_CONTROL_MAX_BANDWIDTH }

/-- Modelled from the spec: the DSCP tag limit stores the tag and sets the
enable and DSCP-tag control bits. -/
def netDSCPTagSet (tag : Nat) (job : JobObject) : JobObject :=
  { job with
      info.NetRateControl.DscpTag := tag,
      info.NetRateControl.ControlFlags :=
        job.info.NetRateControl.ControlFlags |||
          (JOB_OBJECT_NET_RATE_CONTROL_ENABLE ||| JOB_OBJECT_NET_RATE_CONTROL_DSCP_TAG) }

/-- Modelled from the spec: clearing the DSCP tag limit clears its control
bit. -/
def netDSCPTagReset (job : JobObject) : JobObject :=
  { job with info.NetRateControl.ControlFlags :=
      andNot32 job.info.NetRateControl.ControlFlags JOB_OBJECT_NET_RATE_CONTROL_DSCP_TAG }

/-- Limit.set: merge the limit into its cached block (each arm mirrors the
corresponding Go `set` method; the value-carrying extended limits write their
value field and then apply the embedded basicLimit.set). -/
def Limit.set (l : Limit) (job : JobObject) : JobObject :=
  match l with
  | .basicLimit flag => basicSet flag job
  | .affinityLimit flag affinity =>
      basicSet flag { job with info.ExtendedLimits.BasicLimitInformation.Affinity := affinity }
  | .jobMemoryLimit flag jobMemory =>
      basicSet flag { job with info.ExtendedLimits.JobMemoryLimit := jobMemory }
  | .jobTimeLimit flag jobTime =>
      basicSet flag
        { job with info.ExtendedLimits.BasicLimitInformation.PerJobUserTimeLimit := jobTime }
  | .processMemoryLimit flag processMemory =>
      basicSet flag { job with info.ExtendedLimits.ProcessMemoryLimit := processMemory }
  | .processTimeLimit flag processTime =>
      basicSet flag
        { job with info.ExtendedLimits.BasicLimitInformation.PerProcessUserTimeLimit := processTime }
  | .activeProcessLimit flag procs =>
      basicSet flag { job with info.ExtendedLimits.BasicLimitInformation.ActiveProcessLimit := procs }
  | .workingSetLimit flag wsMin wsMax =>
      basicSet flag
        { job with
            info.ExtendedLimits.BasicLimitInformation.MinimumWorkingSetSize := wsMin,
            info.ExtendedLimits.BasicLimitInformation.MaximumWorkingSetSize := wsMax }
  | .priorityClassLimit flag prio =>
      basicSet flag { job with info.ExtendedLimits.BasicLimitInformation.PriorityClass := prio }
  | .schedulingClassLimit flag schedClass =>
      basicSet flag
        { job with info.ExtendedLimits.BasicLimitInformation.SchedulingClass := schedClass }
  | .uiRestriction r =>
      { job with info.UIRestrictions.UIRestrictionsClass :=
          job.info.UIRestrictions.UIRestrictionsClass ||| r }
  | .cpuLimit rate => cpuSet rate job
  | .netBandwidthLimit maxBandwidth => netBandwidthSet maxBandwidth job
  | .netDSCPTagLimit tag => netDSCPTagSet tag job

/-- Limit.reset: clear the limit from its cached block.  Every extended-limit
variant inherits basicLimit.reset (only the flag bit is cleared, value fields
are left in place); uiRestriction clears its bit; cpuLimit zeroes the whole
`ControlFlags` field. -/
def Limit.reset (l : Limit) (job : JobObject) : JobObject :=
  match l with
  | .basicLimit flag => basicReset flag job
  | .affinityLimit flag _ => basicReset flag job
  | .jobMemoryLimit flag _ => basicReset flag job
  | .jobTimeLimit flag _ => basicReset flag job
  | .processMemoryLimit flag _ => basicReset flag job
  | .processTimeLimit flag _ => basicReset flag job
  | .activeProcessLimit flag _ => basicReset flag job
  | .workingSetLimit flag _ _ => basicReset flag job
  | .priorityClassLimit flag _ => basicReset flag job
  | .schedulingClassLimit flag _ => basicReset flag job
  | .uiRestriction r =>
      { job with info.UIRestrictions.UIRestrictionsClass :=
          andNot32 job.info.UIRestrictions.UIRestrictionsClass r }
  | .cpuLimit _ => { job with info.CPURateControl.ControlFlags := 0 }
  | .netBandwidthLimit _ => netBandwidthReset job
  | .netDSCPTagLimit _ => netDSCPTagReset job

/-- Limit.IsSet: report whether the limit is set in the cached block (every
extended-limit variant inherits basicLimit.IsSet: `LimitFlags & flag > 0`). -/
def Limit.IsSet (l : Limit) (job : JobObject) : Bool :=
  match l with
  | .basicLimit flag => decide (0 < job.info.ExtendedLimits.BasicLimitInformation.LimitFlags &&& flag)
  | .affinityLimit flag _ => decide (0 < job.info.ExtendedLimits.BasicLimitInformation.LimitFlags &&& flag)
  | .jobMemoryLimit flag _ => decide (0 < job.info.ExtendedLimits.BasicLimitInformation.LimitFlags &&& flag)
  | .jobTimeLimit flag _ => decide (0 < job.info.ExtendedLimits.BasicLimitInformation.LimitFlags &&& flag)
  | .processMemoryLimit flag _ => decide (0 < job.info.ExtendedLimits.BasicLimitInformation.LimitFlags &&& flag)
  | .processTimeLimit flag _ => decide (0 < job.info.ExtendedLimits.BasicLimitInformation.LimitFlags &&& flag)
  | .activeProcessLimit flag _ => decide (0 < job.info.ExtendedLimits.BasicLimitInformation.LimitFlags &&& flag)
  | .workingSetLimit flag _ _ => decide (0 < job.info.ExtendedLimits.BasicLimitInformation.LimitFlags &&& flag)
  | .priorityClassLimit flag _ => decide (0 < job.info.ExtendedLimits.BasicLimitInformation.LimitFlags &&& flag)
  | .schedulingClassLimit flag _ => decide (0 < job.info.ExtendedLimits.BasicLimitInformation.LimitFlags &&& flag)
  | .uiRestriction r => decide (0 < job.info.UIRestrictions.UIRestrictionsClass &&& r)
  | .cpuLimit _ => decide (job.info.CPURateControl.ControlFlags ≠ 0)
  | .netBandwidthLimit _ =>
      decide (0 < job.info.NetRateControl.ControlFlags &&& JOB_OBJECT_NET_RATE_CONTROL_MAX_BANDWIDTH)
  | .netDSCPTagLimit _ =>
      decide (0 < job.info.NetRateControl.ControlFlags &&& JOB_OBJECT_NET_RATE_CONTROL_DSCP_TAG)

/-- JobObjectInformationClass: the five information classes the library uses
(job_object.go infoPtr). -/
inductive JobObjectInformationClass where
  | JobObjectBasicAndIoAccountingInformation
  | JobObjectExtendedLimitInformation
  | JobObjectBasicUIRestrictions
  | JobObjectCpuRateControlInformation
  | JobObjectNetRateControlInformation
deriving DecidableEq

/-- resolveRequiredInfoClass of job_object.go: the static mapping from limit
variant to the information class (info block) it targets; the default case of
the Go switch is the extended-limits class. -/
def resolveRequiredInfoClass (l : Limit) : JobObjectInformationClass :=
  match l with
  | .uiRestriction _ => .JobObjectBasicUIRestrictions
  | .cpuLimit _ => .JobObjectCpuRateControlInformation
  | .netBandwidthLimit _ => .JobObjectNetRateControlInformation
  | .netDSCPTagLimit _ => .JobObjectNetRateControlInformation
  | _ => .JobObjectExtendedLimitInformation

/-- SyncEvent: one entry of the trace of OS interactions performed by the
limit application protocol.  `query c` records a QueryInformationJobObject
call for class `c` (job.sync(jobapi.QueryInfo, c)), `merge c` records one
limit being set or reset into the cached block of class `c`, and `setInfo c`
records a SetInformationJobObject write-back (job.sync(jobapi.SetInfo, c)). -/
inductive SyncEvent where
  | query (c : JobObjectInformationClass)
  | merge (c : JobObjectInformationClass)
  | setInfo (c : JobObjectInformationClass)
deriving DecidableEq

/-- job.sync(jobapi.QueryInfo, c) for a single class: copy the OS-side block
of class `c` into the cache (jobapi.QueryInfo writes through the pointer
returned by infoPtr). -/
def JobObject.queryInfo (job : JobObject) (os : JobInfo) (c : JobObjectInformationClass) :
    JobObject :=
  match c with
  | .JobObjectBasicAndIoAccountingInformation => { job with info.AccountingInfo := os.AccountingInfo }
  | .JobObjectExtendedLimitInformation => { job with info.ExtendedLimits := os.ExtendedLimits }
  | .JobObjectBasicUIRestrictions => { job with info.UIRestrictions := os.UIRestrictions }
  | .JobObjectCpuRateControlInformation => { job with info.CPURateControl := os.CPURateControl }
  | .JobObjectNetRateControlInformation => { job with info.NetRateControl := os.NetRateControl }

/-- job.sync(jobapi.SetInfo, c) for a single class: copy the cached block of
class `c` out to the OS side. -/
def writeInfo (os : JobInfo) (job : JobObject) (c : JobObjectInformationClass) : JobInfo :=
  match c with
  | .JobObjectBasicAndIoAccountingInformation => { os with AccountingInfo := job.info.AccountingInfo }
  | .JobObjectExtendedLimitInformation => { os with ExtendedLimits := job.info.ExtendedLimits }
  | .JobObjectBasicUIRestrictions => { os with UIRestrictions := job.info.UIRestrictions }
  | .JobObjectCpuRateControlInformation => { os with CPURateControl := job.info.CPURateControl }
  | .JobObjectNetRateControlInformation => { os with NetRateControl := job.info.NetRateControl }

/-- Loop body of applyLimit (job_object.go): walk the limits in order; for
each limit resolve its class, query the class once if it has not been queried
in this call (`classesSet` is the `seen` accumulator; the Go map is embedded
as a list in first-insertion order), then merge (set or reset) the limit into
the cache.  Returns the final cache, the set of classes touched and the event
trace of the loop. -/
def applyLoop (set : Bool) (os : JobInfo) :
    List Limit → JobObject → List JobObjectInformationClass →
      JobObject × List JobObjectInformationClass × List SyncEvent
  | [], job, seen => (job, seen, [])
  | l :: ls, job, seen =>
      let c := resolveRequiredInfoClass l
      let job1 := if c ∈ seen then job else job.queryInfo os c
      let evs1 : List SyncEvent := if c ∈ seen then [] else [SyncEvent.query c]
      let seen1 := if c ∈ seen then seen else seen ++ [c]
      let job2 := if set then l.set job1 else l.reset job1
      let r := applyLoop set os ls job2 seen1
      (r.1, r.2.1, evs1 ++ SyncEvent.merge c :: r.2.2)

/-- applyLimit of job_object.go: run the query/merge loop over the limits,
then issue exactly one write-back per class touched (job.sync(jobapi.SetInfo,
infoClasses...)).  The function returns the new cache, the new OS-side state
and the trace of OS interactions.  The OS oracle of this model never fails,
which embeds the successful execution path; with zero limits no OS call is
made at all, so that path is the whole behaviour. -/
def applyLimit (os : JobInfo) (set : Bool) (limits : List Limit) (job : JobObject) :
    JobObject × JobInfo × List SyncEvent :=
  let r := applyLoop set os limits job []
  (r.1, r.2.1.foldl (fun o c => writeInfo o r.1 c) os,
    r.2.2 ++ r.2.1.map SyncEvent.setInfo)

/-- SetLimit of job_object.go: applyLimit with set = true. -/
def SetLimit (job : JobObject) (os : JobInfo) (limits : List Limit) :
    JobObject × JobInfo × List SyncEvent :=
  applyLimit os true limits job

/-- ResetLimit of job_object.go: applyLimit with set = false. -/
def ResetLimit (job : JobObject) (os : JobInfo) (limits : List Limit) :
    JobObject × JobInfo × List SyncEvent :=
  applyLimit os false limits job

/-- QueryLimits of job_object.go: query the four limit information classes
(extended limits, UI restrictions, CPU rate, net rate) into the cache. -/
def QueryLimits (job : JobObject) (os : JobInfo) : JobObject :=
  (((job.queryInfo os .JobObjectExtendedLimitInformation).queryInfo os
      .JobObjectBasicUIRestrictions).queryInfo os
      .JobObjectCpuRateControlInformation).queryInfo os
      .JobObjectNetRateControlInformation

/-- limitInfoClassesSet of job_object.go: the limit classes whose cached
block is non-empty, each decided by its flag/control-bit predicate, in the
fixed source order. -/
def limitInfoClassesSet (job : JobObject) : List JobObjectInformationClass :=
  ([(decide (0 < job.info.ExtendedLimits.BasicLimitInformation.LimitFlags),
      JobObjectInformationClass.JobObjectExtendedLimitInformation),
    (decide (0 < job.info.UIRestrictions.UIRestrictionsClass),
      JobObjectInformationClass.JobObjectBasicUIRestrictions),
    (decide (0 < job.info.CPURateControl.ControlFlags),
      JobObjectInformationClass.JobObjectCpuRateControlInformation),
    (decide (0 < job.info.NetRateControl.ControlFlags),
      JobObjectInformationClass.JobObjectNetRateControlInformation)]).filterMap
    (fun p => if p.1 then some p.2 else none)

/-- HasLimits of job_object.go: query all limit blocks, then report whether
any block is non-empty. -/
def HasLimits (job : JobObject) (os : JobInfo) : Bool :=
  decide (0 < (limitInfoClassesSet (QueryLimits job os)).length)

/-- ResetLimits of job_object.go: query every limit block, record which
blocks are non-empty, zero the whole cached JobInfo, and write back exactly
the recorded blocks.  Returns the new cache, the new OS-side state, and the
list of classes written back. -/
def ResetLimits (job : JobObject) (os : JobInfo) :
    JobObject × JobInfo × List JobObjectInformationClass :=
  let job1 := QueryLimits job os
  let infoClasses := limitInfoClassesSet job1
  let job2 := { job1 with info := JobInfo.zero }
  (job2, infoClasses.foldl (fun o c => writeInfo o job2 c) os, infoClasses)

/-- Counters of job_object.go: basic accounting and I/O counters of a job
object. -/
structure Counters where
  TotalUserTime : Nat
  TotalKernelTime : Nat
  ThisPeriodTotalUserTime : Nat
  ThisPeriodTotalKernelTime : Nat
  TotalPageFaultCount : Nat
  TotalProcesses : Nat
  ActiveProcesses : Nat
  TotalTerminatedProcesses : Nat
  ReadOperationCount : Nat
  WriteOperationCount : Nat
  OtherOperationCount : Nat
  ReadTransferCount : Nat
  WriteTransferCount : Nat
  OtherTransferCount : Nat
deriving DecidableEq

/-- QueryCounters of job_object.go: one query of the accounting class, then
field-by-field assignment into the caller-supplied Counters.  The assignments
are transcribed exactly as written in the source (in particular
`c.TotalKernelTime = job.AccountingInfo.TotalUserTime`,
`c.ThisPeriodTotalUserTime = job.AccountingInfo.TotalUserTime`,
`c.ThisPeriodTotalKernelTime = job.AccountingInfo.TotalUserTime` and
`c.OtherTransferCount = job.AccountingInfo.OtherOperationCount`). -/
def QueryCounters (job : JobObject) (os : JobInfo) (c : Counters) : JobObject × Counters :=
  let job1 := job.queryInfo os .JobObjectBasicAndIoAccountingInformation
  let a := job1.info.AccountingInfo
  (job1,
    { c with
        TotalUserTime := a.BasicInfo.TotalUserTime,
        TotalKernelTime := a.BasicInfo.TotalUserTime,
        ThisPeriodTotalUserTime := a.BasicInfo.TotalUserTime,
        ThisPeriodTotalKernelTime := a.BasicInfo.TotalUserTime,
        TotalPageFaultCount := a.BasicInfo.TotalPageFaultCount,
        TotalProcesses := a.BasicInfo.TotalProcesses,
        ActiveProcesses := a.BasicInfo.ActiveProcesses,
        TotalTerminatedProcesses := a.BasicInfo.TotalTerminatedProcesses,
        ReadOperationCount := a.IoInfo.ReadOperationCount,
        WriteOperationCount := a.IoInfo.WriteOperationCount,
        OtherOperationCount := a.IoInfo.OtherOperationCount,
        ReadTransferCount := a.IoInfo.ReadTransferCount,
        WriteTransferCount := a.IoInfo.WriteTransferCount,
        OtherTransferCount := a.IoInfo.OtherOperationCount })

/-- PortError: the errors a completion-port operation can surface.
`abandoned` is jobapi.ErrAbandoned (ERROR_ABANDONED_WAIT_0, 0x2df),
`handleInvalid` is the "handle is invalid" class (errno 0x6), and `other`
covers any remaining OS error code. -/
inductive PortError where
  | abandoned
  | handleInvalid
  | other (code : Nat)
deriving DecidableEq

/-- errors.Is(err, jobapi.ErrAbandoned). -/
def PortError.isAbandoned : PortError → Bool
  | .abandoned => true
  | _ => false

/-- NotificationType of the notification file (string-valued). -/
def NotificationType := String
deriving instance DecidableEq for NotificationType

/-- Notification of the notification file.  The Go field `Type` is named
`typ` here because `Type` is reserved in Lean. -/
structure Notification where
  typ : NotificationType
  PID : Nat
deriving DecidableEq

/-- Subscription of the notification file: the mutex-guarded (err, closed)
pair.  The port handle itself stays abstract; Close takes the outcome of the
`Port.Close` call as a parameter.  The mutex is embedded by making each
critical section (Close, Err, handlePortErr) one atomic step. -/
structure Subscription where
  closed : Bool
  err : Option PortError
deriving DecidableEq

/-- CloseEvent: trace entries of the subscription lifecycle.  `closeHandle`
records an invocation of Port.Close (syscall.CloseHandle on the port),
`setClosed` records the `s.closed = true` assignment, `sinkClose` records
`close(c)` on the notification channel. -/
inductive CloseEvent where
  | closeHandle
  | setClosed
  | sinkClose
deriving DecidableEq, BEq

/-- Subscription.Close of the notification file: under the mutex, return nil
if already closed; otherwise invoke Port.Close — on failure return that error
with the state unchanged, on success mark the subscription closed and return
nil.  `portCloseRes` is the outcome of the Port.Close call (`none` is
success); the returned trace records the steps in execution order. -/
def Subscription.Close (s : Subscription) (portCloseRes : Option PortError) :
    Subscription × Option PortError × List CloseEvent :=
  if s.closed then (s, none, [])
  else
    match portCloseRes with
    | some e => (s, some e, [CloseEvent.closeHandle])
    | none => ({ s with closed := true }, none, [CloseEvent.closeHandle, CloseEvent.setClosed])

/-- Subscription.Err of the notification file: the mutex-guarded read of the
recorded terminal error. -/
def Subscription.Err (s : Subscription) : Option PortError := s.err

/-- handlePortErr of the notification file: under the mutex, if the dequeue
error is the abandoned-wait error and the subscription is already flagged
closed, record nothing; otherwise record the error. -/
def handlePortErr (s : Subscription) (err : PortError) : Subscription :=
  if err.isAbandoned && s.closed then s else { s with err := some err }

/-- notify of the notification file (the dequeue loop): the stream of
NextMessage outcomes is embedded as a list; the loop publishes each received
notification to the sink in order and, on the first error, classifies it with
handlePortErr, closes the sink (the deferred close(c)) and exits.  If the
stream is exhausted without an error the loop is still blocked in
NextMessage, which the model renders as `none` (no terminated run).  A
terminating run returns the published notifications in order, the final
subscription state and the close-event trace. -/
def notify (s : Subscription) :
    List (Except PortError Notification) →
      Option (List Notification × Subscription × List CloseEvent)
  | [] => none
  | .ok m :: rest =>
      (notify s rest).map (fun r => (m :: r.1, r.2.1, r.2.2))
  | .error e :: _ => some ([], handlePortErr s e, [CloseEvent.sinkClose])

/-- CreateEvent: trace entries of the Create sequence.  `createJob` records
the jobapi.CreateJobObject call, `applyLimits` the job.SetLimit call,
`closeHandle` the job.Close call. -/
inductive CreateEvent where
  | createJob
  | applyLimits
  | closeHandle
deriving DecidableEq, BEq

/-- Create of job_object.go: create the OS job object, and if limits were
given apply them; when limit application fails the fresh handle is closed
(the close error is discarded by `_ = job.Close()`) and the original
limit-application error is returned.  The outcomes of the three external
calls are parameters: `createRes` of jobapi.CreateJobObject, `setLimitRes` of
job.SetLimit (`none` is success), `closeRes` of job.Close.  Returns the
result of Create and the trace of calls made, in order. -/
def Create (name : String) (limits : List Limit) (createRes : Except PortError Nat)
    (setLimitRes : Option PortError) (closeRes : Option PortError) :
    Except PortError JobObject × List CreateEvent :=
  match createRes with
  | .error e => (.error e, [CreateEvent.createJob])
  | .ok hJobObject =>
      let job : JobObject := { Name := name, Handle := hJobObject, info := JobInfo.zero }
      if limits.length ≠ 0 then
        match setLimitRes with
        | some e =>
            let _ := closeRes
            (.error e, [CreateEvent.createJob, CreateEvent.applyLimits, CreateEvent.closeHandle])
        | none => (.ok job, [CreateEvent.createJob, CreateEvent.applyLimits])
      else (.ok job, [CreateEvent.createJob])

/-! Helper definitions for stating and proving the claims. -/

/-- Number of occurrences of an element in a list. -/
def countOcc {α : Type} [DecidableEq α] (a : α) : List α → Nat
  | [] => 0
  | b :: l => (if b = a then 1 else 0) + countOcc a l

/-- Classes of a limit list not yet seen, in first-occurrence order: the
first-insertion-order representative of the Go `classesSet` map keys. -/
def newClasses (seen : List JobObjectInformationClass) :
    List Limit → List JobObjectInformationClass
  | [] => []
  | l :: ls =>
      let c := resolveRequiredInfoClass l
      if c ∈ seen then newClasses seen ls else c :: newClasses (seen ++ [c]) ls

/-- Every merge event in the trace is into a class that was queried earlier
in the trace (or was already in the initial `queried` list). -/
def mergesCoveredB (queried : List JobObjectInformationClass) : List SyncEvent → Bool
  | [] => true
  | .query c :: tr => mergesCoveredB (c :: queried) tr
  | .merge c :: tr => decide (c ∈ queried) && mergesCoveredB queried tr
  | .setInfo _ :: tr => mergesCoveredB queried tr

/-- An all-zero job object (Go zero value with empty name and handle 0),
used for concrete witnesses. -/
def emptyJob : JobObject := { Name := "", Handle := 0, info := JobInfo.zero }

/-- An all-zero Counters value, used for concrete witnesses. -/
def zeroCounters : Counters :=
  { TotalUserTime := 0, TotalKernelTime := 0, ThisPeriodTotalUserTime := 0,
    ThisPeriodTotalKernelTime := 0, TotalPageFaultCount := 0, TotalProcesses := 0,
    ActiveProcesses := 0, TotalTerminatedProcesses := 0, ReadOperationCount := 0,
    WriteOperationCount := 0, OtherOperationCount := 0, ReadTransferCount := 0,
    WriteTransferCount := 0, OtherTransferCount := 0 }

/-- Claim C2: the claim says a successful QueryCounters(dest) sets each of
the 14 fields of dest equal to the correspondingly named field of the
accounting block obtained by the single query.  The code does not: it
assigns `TotalUserTime` to `TotalKernelTime`, `ThisPeriodTotalUserTime` and
`ThisPeriodTotalKernelTime`, and `OtherOperationCount` to
`OtherTransferCount`.  This theorem evaluates the embedded QueryCounters at
an accounting block whose fields are pairwise distinct and exhibits the
divergence: the destination's TotalKernelTime is 1 (the block's
TotalUserTime) although the block's TotalKernelTime is 2, and the
destination's OtherTransferCount is 11 (the block's OtherOperationCount)
although the block's OtherTransferCount is 14. -/
theorem queryCounters_misassigns_fields :
    let a : JOBOBJECT_BASIC_AND_IO_ACCOUNTING_INFORMATION :=
      { BasicInfo :=
          { TotalUserTime := 1, TotalKernelTime := 2, ThisPeriodTotalUserTime := 3,
            ThisPeriodTotalKernelTime := 4, TotalPageFaultCount := 5, TotalProcesses := 6,
            ActiveProcesses := 7, TotalTerminatedProcesses := 8 },
        IoInfo :=
          { ReadOperationCount := 9, WriteOperationCount := 10, OtherOperationCount := 11,
            ReadTransferCount := 12, WriteTransferCount := 13, OtherTransferCount := 14 } }
    let os : JobInfo := { JobInfo.zero with AccountingInfo := a }
    let r := (QueryCounters emptyJob os zeroCounters).2
    r.TotalKernelTime = 1 ∧ r.ThisPeriodTotalUserTime = 1 ∧ r.ThisPeriodTotalKernelTime = 1
      ∧ r.OtherTransferCount = 11
      ∧ os.AccountingInfo.BasicInfo.TotalKernelTime = 2
      ∧ os.AccountingInfo.BasicInfo.ThisPeriodTotalUserTime = 3
      ∧ os.AccountingInfo.BasicInfo.ThisPeriodTotalKernelTime = 4
      ∧ os.AccountingInfo.IoInfo.OtherTransferCount = 14 := by
  decide

/-- Claim C3 counterexample: the claim states that in Subscription.Close the
closed flag is set before the port handle is closed.  On the not-yet-closed
subscription with a succeeding handle close, the embedded Close produces the
trace [closeHandle, setClosed]: the handle close comes first, so the
flag-set step does not precede it. -/
theorem close_flag_before_handle_counterexample :
    (Subscription.Close { closed := false, err := none } none).2.2
        = [CloseEvent.closeHandle, CloseEvent.setClosed]
    ∧ ¬ ((Subscription.Close { closed := false, err := none } none).2.2.indexOf
            CloseEvent.setClosed
          < (Subscription.Close { closed := false, err := none } none).2.2.indexOf
            CloseEvent.closeHandle) := by
  decide

/-- Claim C3 (amended): when the subscription is not already closed and the
handle close succeeds, Close closes the port handle first and only then sets
the closed flag — the trace is [closeHandle, setClosed] — and both steps
happen inside the single mutex-held critical section that the model renders
as one atomic step, so the dequeue loop's error classification (which takes
the same mutex) can never observe the closed handle with the flag still
false. -/
theorem close_handle_then_flag (s : Subscription) (h : s.closed = false) :
    Subscription.Close s none
      = ({ s with closed := true }, none, [CloseEvent.closeHandle, CloseEvent.setClosed]) := by
  simp [Subscription.Close, h]

/-- Witness for close_handle_then_flag at the open subscription with no
recorded error. -/
theorem close_handle_then_flag_witness :
    Subscription.Close { closed := false, err := none } none
      = ({ closed := true, err := none }, none,
          [CloseEvent.closeHandle, CloseEvent.setClosed]) :=
  close_handle_then_flag { closed := false, err := none } rfl

/-- Claim C4: when the dequeue loop's NextMessage call fails, the loop
publishes exactly the notifications received before the failure, classifies
the error with handlePortErr, closes the sink and exits.  No error is
recorded if and only if the error is the abandoned-wait error and the closed
flag is true at classification time; any other error is recorded and is then
returned by Err. -/
theorem notify_error_classification (s : Subscription) (goods : List Notification)
    (e : PortError) (h : s.err = none) :
    notify s (goods.map Except.ok ++ [Except.error e])
        = some (goods, handlePortErr s e, [CloseEvent.sinkClose])
    ∧ ((handlePortErr s e).err = none ↔ (e.isAbandoned = true ∧ s.closed = true))
    ∧ (¬(e.isAbandoned = true ∧ s.closed = true) → (handlePortErr s e).Err = some e) := by
  refine ⟨?_, ?_, ?_⟩
  · induction goods with
    | nil => simp [notify]
    | cons m ms ih => simpa [notify] using ih
  · unfold handlePortErr
    cases hA : e.isAbandoned <;> cases hC : s.closed <;> simp [hA, hC, h]
  · intro hn
    unfold handlePortErr Subscription.Err
    cases hA : e.isAbandoned <;> cases hC : s.closed <;> simp_all

/-- Witness for notify_error_classification: a closed subscription receiving
one notification and then the abandoned-wait error records no error. -/
theorem notify_error_classification_witness :
    notify { closed := true, err := none }
        (([({ typ := "NewProcess", PID := 7 } : Notification)]).map Except.ok
          ++ [Except.error PortError.abandoned])
        = some ([{ typ := "NewProcess", PID := 7 }],
            handlePortErr { closed := true, err := none } PortError.abandoned,
            [CloseEvent.sinkClose])
    ∧ ((handlePortErr { closed := true, err := none } PortError.abandoned).err = none
        ↔ (PortError.abandoned.isAbandoned = true
            ∧ ({ closed := true, err := none } : Subscription).closed = true))
    ∧ (¬(PortError.abandoned.isAbandoned = true
            ∧ ({ closed := true, err := none } : Subscription).closed = true)
        → (handlePortErr { closed := true, err := none } PortError.abandoned).Err
            = some PortError.abandoned) :=
  notify_error_classification { closed := true, err := none }
    [{ typ := "NewProcess", PID := 7 }] PortError.abandoned rfl

/-- Claim C7: if the OS job creation succeeds but limit application fails,
Create closes the fresh handle before returning and propagates the original
limit-application error regardless of the outcome of the close; if creation
itself fails, no limit application and no close is attempted. -/
theorem create_closes_handle_on_limit_failure (name : String) (limits : List Limit)
    (hJob : Nat) (e : PortError) (closeRes : Option PortError) (hl : limits ≠ []) :
    Create name limits (.ok hJob) (some e) closeRes
        = (.error e, [CreateEvent.createJob, CreateEvent.applyLimits, CreateEvent.closeHandle])
    ∧ (∀ (e0 : PortError) (slr cr : Option PortError),
        Create name limits (.error e0) slr cr = (.error e0, [CreateEvent.createJob])) := by
  constructor
  · simp [Create, hl]
  · intro e0 slr cr
    simp [Create]

/-- Witness for create_closes_handle_on_limit_failure at one limit whose
application fails with a non-close error while the close itself also fails. -/
theorem create_closes_handle_on_limit_failure_witness :
    Create "w" [LimitBreakawayOK] (.ok 5) (some (PortError.other 87)) (some PortError.handleInvalid)
        = (.error (PortError.other 87),
            [CreateEvent.createJob, CreateEvent.applyLimits, CreateEvent.closeHandle])
    ∧ (∀ (e0 : PortError) (slr cr : Option PortError),
        Create "w" [LimitBreakawayOK] (.error e0) slr cr
          = (.error e0, [CreateEvent.createJob])) :=
  create_closes_handle_on_limit_failure "w" [LimitBreakawayOK] 5 (PortError.other 87)
    (some PortError.handleInvalid) (by decide)

/-- Claim C8: Close is idempotent — the first Close of an open subscription
succeeds and marks it closed, and every later Close returns nil with an
empty trace (in particular no further closeHandle); no Close trace ever
contains a sink close, while every terminating run of the dequeue loop
closes the sink exactly once. -/
theorem close_idempotent_sink_closed_once (s : Subscription) (h : s.closed = false) :
    ((Subscription.Close s none).2.1 = none ∧ (Subscription.Close s none).1.closed = true)
    ∧ (∀ res2 : Option PortError,
        Subscription.Close (Subscription.Close s none).1 res2
          = ((Subscription.Close s none).1, none, []))
    ∧ (∀ (s2 : Subscription) (res : Option PortError),
        CloseEvent.sinkClose ∉ (Subscription.Close s2 res).2.2)
    ∧ (∀ (s2 : Subscription) (msgs : List (Except PortError Notification))
          (out : List Notification × Subscription × List CloseEvent),
        notify s2 msgs = some out → countOcc CloseEvent.sinkClose out.2.2 = 1) := by
  refine ⟨?_, ?_, ?_, ?_⟩
  · simp [Subscription.Close, h]
  · intro res2
    simp [Subscription.Close, h]
  · intro s2 res
    by_cases h2 : s2.closed
    · simp [Subscription.Close, h2]
    · cases res <;> simp [Subscription.Close, h2]
  · intro s2 msgs out
    induction msgs generalizing out with
    | nil => simp [notify]
    | cons m rest ih =>
        cases m with
        | ok v =>
            intro hv
            simp only [notify, Option.map_eq_some'] at hv
            obtain ⟨r, hr, hout⟩ := hv
            have := ih r hr
            simpa [← hout] using this
        | error e =>
            intro hv
            simp only [notify, Option.some_inj] at hv
            simp [← hv, countOcc]

/-- Witness for close_idempotent_sink_closed_once at the open subscription
with no recorded error. -/
theorem close_idempotent_sink_closed_once_witness :
    ((Subscription.Close { closed := false, err := none } none).2.1 = none
        ∧ (Subscription.Close { closed := false, err := none } none).1.closed = true)
    ∧ (∀ res2 : Option PortError,
        Subscription.Close (Subscription.Close { closed := false, err := none } none).1 res2
          = ((Subscription.Close { closed := false, err := none } none).1, none, []))
    ∧ (∀ (s2 : Subscription) (res : Option PortError),
        CloseEvent.sinkClose ∉ (Subscription.Close s2 res).2.2)
    ∧ (∀ (s2 : Subscription) (msgs : List (Except PortError Notification))
          (out : List Notification × Subscription × List CloseEvent),
        notify s2 msgs = some out → countOcc CloseEvent.sinkClose out.2.2 = 1) :=
  close_idempotent_sink_closed_once { closed := false, err := none } rfl

/-- Claim C10: if the port-handle close inside Subscription.Close fails,
Close returns that error with the subscription state unchanged (the closed
flag stays false), so a subsequent Close attempts the handle close again
(its trace begins with another closeHandle) instead of returning success
without doing anything. -/
theorem close_failure_leaves_state_unchanged (s : Subscription) (e : PortError)
    (h : s.closed = false) :
    Subscription.Close s (some e) = (s, some e, [CloseEvent.closeHandle])
    ∧ Subscription.Close (Subscription.Close s (some e)).1 none
        = ({ s with closed := true }, none, [CloseEvent.closeHandle, CloseEvent.setClosed]) := by
  constructor
  · simp [Subscription.Close, h]
  · simp [Subscription.Close, h]

/-- Witness for close_failure_leaves_state_unchanged on an open subscription
whose first handle close fails with the handle-invalid error. -/
theorem close_failure_leaves_state_unchanged_witness :
    Subscription.Close { closed := false, err := none } (some PortError.handleInvalid)
        = ({ closed := false, err := none }, some PortError.handleInvalid,
            [CloseEvent.closeHandle])
    ∧ Subscription.Close
          (Subscription.Close { closed := false, err := none }
            (some PortError.handleInvalid)).1 none
        = ({ closed := true, err := none }, none,
            [CloseEvent.closeHandle, CloseEvent.setClosed]) :=
  close_failure_leaves_state_unchanged { closed := false, err := none }
    PortError.handleInvalid rfl

/-- Number of CPU sub-mode flags (weight-based, hard-cap, min/max) active in
a CPU-rate ControlFlags value. -/
def cpuSubModeCount (flags : Nat) : Nat :=
  (if 0 < flags &&& JOB_OBJECT_CPU_RATE_CONTROL_WEIGHT_BASED then 1 else 0)
    + (if 0 < flags &&& JOB_OBJECT_CPU_RATE_CONTROL_HARD_CAP then 1 else 0)
    + (if 0 < flags &&& JOB_OBJECT_CPU_RATE_CONTROL_MIN_MAX_RATE then 1 else 0)

/-- Claim C5 counterexample: the claim quantifies over every limit built by
WithCPUHardCapLimit(v) (and the other two constructors), but for v = 0 none
of the three cases of cpuLimit.set matches, so the written ControlFlags
contain the enable and notify bits and no sub-mode flag at all — not
"exactly one sub-mode flag". -/
theorem cpu_submode_counterexample :
    cpuSubModeCount ((WithCPUHardCapLimit 0).set emptyJob).info.CPURateControl.ControlFlags = 0
      ∧ cpuSubModeCount ((WithCPUHardCapLimit 0).set emptyJob).info.CPURateControl.ControlFlags
          ≠ 1 := by
  decide

/-- Claim C5 (amended): restricted to the constructors' documented value
ranges (hard cap at least 1, weight at least 1, min/max with a positive max
— the two packed fields being uint16 values below 2 ^ 16), applying any one
of the three CPU limits to any prior state overwrites the control flags so
that exactly one sub-mode flag plus the enable and notify bits are active,
and decoding afterwards yields a CPURate reflecting only that most recently
applied sub-mode; in the min/max case the (min, max) pair round-trips
through the two little-endian 16-bit halves of the 32-bit value slot. -/
theorem cpu_submode_exclusive (job : JobObject) :
    (∀ v : Nat, 0 < v →
      cpuSubModeCount ((WithCPUHardCapLimit v).set job).info.CPURateControl.ControlFlags = 1
        ∧ 0 < ((WithCPUHardCapLimit v).set job).info.CPURateControl.ControlFlags
            &&& JOB_OBJECT_CPU_RATE_CONTROL_ENABLE
        ∧ 0 < ((WithCPUHardCapLimit v).set job).info.CPURateControl.ControlFlags
            &&& JOB_OBJECT_CPU_RATE_CONTROL_NOTIFY
        ∧ cpuLimitValue ((WithCPUHardCapLimit v).set job)
            = { Min := 0, Max := 0, Weight := 0, HardCap := v })
    ∧ (∀ v : Nat, 0 < v →
        cpuSubModeCount ((WithCPUWeightedLimit v).set job).info.CPURateControl.ControlFlags = 1
          ∧ 0 < ((WithCPUWeightedLimit v).set job).info.CPURateControl.ControlFlags
              &&& JOB_OBJECT_CPU_RATE_CONTROL_ENABLE
          ∧ 0 < ((WithCPUWeightedLimit v).set job).info.CPURateControl.ControlFlags
              &&& JOB_OBJECT_CPU_RATE_CONTROL_NOTIFY
          ∧ cpuLimitValue ((WithCPUWeightedLimit v).set job)
              = { Min := 0, Max := 0, Weight := v, HardCap := 0 })
    ∧ (∀ mn mx : Nat, mn < 2 ^ 16 → mx < 2 ^ 16 → 0 < mx →
        cpuSubModeCount
            ((WithCPUMinMaxLimit mn mx).set job).info.CPURateControl.ControlFlags = 1
          ∧ 0 < ((WithCPUMinMaxLimit mn mx).set job).info.CPURateControl.ControlFlags
              &&& JOB_OBJECT_CPU_RATE_CONTROL_ENABLE
          ∧ 0 < ((WithCPUMinMaxLimit mn mx).set job).info.CPURateControl.ControlFlags
              &&& JOB_OBJECT_CPU_RATE_CONTROL_NOTIFY
          ∧ cpuLimitValue ((WithCPUMinMaxLimit mn mx).set job)
              = { Min := mn, Max := mx, Weight := 0, HardCap := 0 }) := by
  refine ⟨?_, ?_, ?_⟩
  · intro v hv
    simp only [WithCPUHardCapLimit, Limit.set, cpuSet, hv, if_pos]
    refine ⟨by decide, by decide, by decide, ?_⟩
    simp only [cpuLimitValue]
    simp [show (0 : Nat) <
        (JOB_OBJECT_CPU_RATE_CONTROL_HARD_CAP ||| JOB_OBJECT_CPU_RATE_CONTROL_ENABLE
            ||| JOB_OBJECT_CPU_RATE_CONTROL_NOTIFY)
          &&& JOB_OBJECT_CPU_RATE_CONTROL_HARD_CAP from by decide]
  · intro v hv
    simp only [WithCPUWeightedLimit, Limit.set, cpuSet, hv, if_pos]
    have hv0 : ¬ (0 : Nat) < 0 := by decide
    simp only [hv0, if_false, if_neg, Nat.lt_irrefl]
    refine ⟨by decide, by decide, by decide, ?_⟩
    simp only [cpuLimitValue]
    simp [show ¬ (0 : Nat) <
        (JOB_OBJECT_CPU_RATE_CONTROL_WEIGHT_BASED ||| JOB_OBJECT_CPU_RATE_CONTROL_ENABLE
            ||| JOB_OBJECT_CPU_RATE_CONTROL_NOTIFY)
          &&& JOB_OBJECT_CPU_RATE_CONTROL_HARD_CAP from by decide,
      show (0 : Nat) <
        (JOB_OBJECT_CPU_RATE_CONTROL_WEIGHT_BASED ||| JOB_OBJECT_CPU_RATE_CONTROL_ENABLE
            ||| JOB_OBJECT_CPU_RATE_CONTROL_NOTIFY)
          &&& JOB_OBJECT_CPU_RATE_CONTROL_WEIGHT_BASED from by decide]
  · intro mn mx hmn hmx hpos
    simp only [WithCPUMinMaxLimit, Limit.set, cpuSet, hpos, if_pos]
    have hv0 : ¬ (0 : Nat) < 0 := by decide
    simp only [hv0, if_false, if_neg, Nat.lt_irrefl]
    refine ⟨by decide, by decide, by decide, ?_⟩
    simp only [cpuLimitValue]
    simp only [show ¬ (0 : Nat) <
        (JOB_OBJECT_CPU_RATE_CONTROL_MIN_MAX_RATE ||| JOB_OBJECT_CPU_RATE_CONTROL_ENABLE
            ||| JOB_OBJECT_CPU_RATE_CONTROL_NOTIFY)
          &&& JOB_OBJECT_CPU_RATE_CONTROL_HARD_CAP from by decide,
      show ¬ (0 : Nat) <
        (JOB_OBJECT_CPU_RATE_CONTROL_MIN_MAX_RATE ||| JOB_OBJECT_CPU_RATE_CONTROL_ENABLE
            ||| JOB_OBJECT_CPU_RATE_CONTROL_NOTIFY)
          &&& JOB_OBJECT_CPU_RATE_CONTROL_WEIGHT_BASED from by decide,
      show (0 : Nat) <
        (JOB_OBJECT_CPU_RATE_CONTROL_MIN_MAX_RATE ||| JOB_OBJECT_CPU_RATE_CONTROL_ENABLE
            ||| JOB_OBJECT_CPU_RATE_CONTROL_NOTIFY)
          &&& JOB_OBJECT_CPU_RATE_CONTROL_MIN_MAX_RATE from by decide,
      if_true, if_false, ite_true, ite_false, not_false_eq_true]
    rw [show (2 : Nat) ^ 16 = 65536 from by norm_num] at hmn hmx
    have h1 : (mn + 65536 * mx) % 65536 = mn := by omega
    have h2 : (mn + 65536 * mx) / 65536 % 65536 = mx := by omega
    simp [h1, h2]

/-- Witness for cpu_submode_exclusive at the empty job with hard cap 1234,
weight 7 and min/max pair (500, 1000). -/
theorem cpu_submode_exclusive_witness :
    cpuSubModeCount ((WithCPUHardCapLimit 1234).set emptyJob).info.CPURateControl.ControlFlags = 1
      ∧ cpuLimitValue ((WithCPUWeightedLimit 7).set emptyJob)
          = { Min := 0, Max := 0, Weight := 7, HardCap := 0 }
      ∧ cpuLimitValue ((WithCPUMinMaxLimit 500 1000).set emptyJob)
          = { Min := 500, Max := 1000, Weight := 0, HardCap := 0 } :=
  ⟨((cpu_submode_exclusive emptyJob).1 1234 (by decide)).1,
    ((cpu_submode_exclusive emptyJob).2.1 7 (by decide)).2.2.2,
    ((cpu_submode_exclusive emptyJob).2.2 500 1000 (by decide) (by decide) (by decide)).2.2.2⟩

/-- Claim C6: ResetLimits queries every limit block, zeroes the whole cached
JobInfo, and writes back exactly those blocks that were non-empty before
zeroing, where non-empty is the per-block flag/control-bit predicate on the
OS-side state the query returned (extended-limits LimitFlags, UI
restrictions class, CPU-rate ControlFlags, net-rate ControlFlags, each
compared with 0); the accounting block is never written back, and after a
successful ResetLimits HasLimits reports false. -/
theorem resetLimits_writes_back_nonempty (job : JobObject) (os : JobInfo) :
    (JobObjectInformationClass.JobObjectExtendedLimitInformation ∈ (ResetLimits job os).2.2
        ↔ 0 < os.ExtendedLimits.BasicLimitInformation.LimitFlags)
    ∧ (JobObjectInformationClass.JobObjectBasicUIRestrictions ∈ (ResetLimits job os).2.2
        ↔ 0 < os.UIRestrictions.UIRestrictionsClass)
    ∧ (JobObjectInformationClass.JobObjectCpuRateControlInformation ∈ (ResetLimits job os).2.2
        ↔ 0 < os.CPURateControl.ControlFlags)
    ∧ (JobObjectInformationClass.JobObjectNetRateControlInformation ∈ (ResetLimits job os).2.2
        ↔ 0 < os.NetRateControl.ControlFlags)
    ∧ JobObjectInformationClass.JobObjectBasicAndIoAccountingInformation
        ∉ (ResetLimits job os).2.2
    ∧ (ResetLimits job os).1.info = JobInfo.zero
    ∧ HasLimits (ResetLimits job os).1 (ResetLimits job os).2.1 = false := by
  by_cases h1 : 0 < os.ExtendedLimits.BasicLimitInformation.LimitFlags <;>
    by_cases h2 : 0 < os.UIRestrictions.UIRestrictionsClass <;>
      by_cases h3 : 0 < os.CPURateControl.ControlFlags <;>
        by_cases h4 : 0 < os.NetRateControl.ControlFlags <;>
          simp [ResetLimits, QueryLimits, JobObject.queryInfo, limitInfoClassesSet, writeInfo,
            HasLimits, JobInfo.zero, h1, h2, h3, h4]

/-! Bitwise helper lemmas for the single-flag limits. -/

theorem lor_pow_land_pos (x k : Nat) : 0 < (x ||| 2 ^ k) &&& 2 ^ k := by
  rcases Nat.eq_zero_or_pos ((x ||| 2 ^ k) &&& 2 ^ k) with h0 | hp
  · have h : ((x ||| 2 ^ k) &&& 2 ^ k).testBit k = true := by
      simp [Nat.testBit_land, Nat.testBit_lor, Nat.testBit_two_pow_self]
    rw [h0] at h
    simp [Nat.zero_testBit] at h
  · exact hp

theorem andNot32_pow_land_eq_zero (x k : Nat) (hk : k < 32) :
    andNot32 x (2 ^ k) &&& 2 ^ k = 0 := by
  apply Nat.zero_of_testBit_eq_false
  intro i
  simp only [andNot32, Nat.testBit_land, Nat.testBit_xor, Nat.testBit_two_pow_sub_one]
  by_cases hik : i = k
  · subst hik
    simp [Nat.testBit_two_pow_self, hk]
  · simp [Nat.testBit_two_pow_of_ne (Ne.symm hik)]

theorem lor_pow_testBit_other (x k j : Nat) (hjk : j ≠ k) :
    (x ||| 2 ^ k).testBit j = x.testBit j := by
  simp [Nat.testBit_lor, Nat.testBit_two_pow_of_ne (Ne.symm hjk)]

theorem andNot32_lor_pow_testBit_other (x k j : Nat) (hx : x < 2 ^ 32) (hk : k < 32)
    (hjk : j ≠ k) :
    (andNot32 (x ||| 2 ^ k) (2 ^ k)).testBit j = (x ||| 2 ^ k).testBit j := by
  simp only [andNot32, Nat.testBit_land, Nat.testBit_xor, Nat.testBit_two_pow_sub_one]
  by_cases hj : j < 32
  · simp [Nat.testBit_two_pow_of_ne (Ne.symm hjk), hj]
  · have hxj : x.testBit j = false :=
      Nat.testBit_eq_false_of_lt
        (lt_of_lt_of_le hx (Nat.pow_le_pow_right (by norm_num) (by omega)))
    have hkj : (2 ^ k).testBit j = false :=
      Nat.testBit_two_pow_of_ne (by omega)
    simp [Nat.testBit_lor, hxj, hkj]

/-- The six plain boolean extended-limit flags and the eight UI restrictions:
the single boolean-flag limits of the claim. -/
def singleFlagLimits : List Limit :=
  [LimitBreakawayOK, LimitSilentBreakawayOK, LimitDieOnUnhandledException, LimitKillOnJobClose,
    LimitPreserveJobTime, LimitSubsetAffinity,
    LimitDesktop, LimitDisplaySettings, LimitExitWindows, LimitGlobalAtoms, LimitHandles,
    LimitReadClipboard, LimitSystemParameters, LimitWriteClipboard]

/-- Flag bit carried by a single boolean-flag limit. -/
def limitFlagValue : Limit → Nat
  | .basicLimit f => f
  | .uiRestriction r => r
  | _ => 0

/-- Flag field of the block a limit lives in: the UI restrictions class for a
UI restriction, the extended-limits LimitFlags otherwise. -/
def limitFlagField (l : Limit) (ji : JobInfo) : Nat :=
  match l with
  | .uiRestriction _ => ji.UIRestrictions.UIRestrictionsClass
  | _ => ji.ExtendedLimits.BasicLimitInformation.LimitFlags

/-- Statement body of claim C9 for one limit: SetLimit followed by a query
makes IsSet true, a subsequent ResetLimit followed by a query makes IsSet
false, and both the set and the reset leave every bit of the block's flag
field other than the limit's own bit unchanged (compared on the OS-side
state each write-back produced). -/
def c9Body (L : Limit) (job : JobObject) (os : JobInfo) : Prop :=
  L.IsSet (QueryLimits (SetLimit job os [L]).1 (SetLimit job os [L]).2.1) = true
  ∧ L.IsSet
      (QueryLimits
        (ResetLimit (QueryLimits (SetLimit job os [L]).1 (SetLimit job os [L]).2.1)
            (SetLimit job os [L]).2.1 [L]).1
        (ResetLimit (QueryLimits (SetLimit job os [L]).1 (SetLimit job os [L]).2.1)
            (SetLimit job os [L]).2.1 [L]).2.1) = false
  ∧ ∀ j, (limitFlagValue L).testBit j = false →
      ((limitFlagField L (SetLimit job os [L]).2.1).testBit j
          = (limitFlagField L os).testBit j
        ∧ (limitFlagField L
              (ResetLimit (QueryLimits (SetLimit job os [L]).1 (SetLimit job os [L]).2.1)
                  (SetLimit job os [L]).2.1 [L]).2.1).testBit j
            = (limitFlagField L (SetLimit job os [L]).2.1).testBit j)

theorem c9_basic (k : Nat) (hk : k < 32) (job : JobObject) (os : JobInfo)
    (hrange : os.ExtendedLimits.BasicLimitInformation.LimitFlags < 2 ^ 32) :
    c9Body (Limit.basicLimit (2 ^ k)) job os := by
  refine ⟨?_, ?_, ?_⟩
  · show decide (0 < (os.ExtendedLimits.BasicLimitInformation.LimitFlags ||| 2 ^ k) &&& 2 ^ k)
        = true
    exact decide_eq_true (lor_pow_land_pos _ k)
  · show decide
        (0 < andNot32 (os.ExtendedLimits.BasicLimitInformation.LimitFlags ||| 2 ^ k) (2 ^ k)
            &&& 2 ^ k)
        = false
    rw [andNot32_pow_land_eq_zero _ k hk]
    rfl
  · intro j hj
    simp only [limitFlagValue] at hj
    have hjk : j ≠ k := by
      intro e
      subst e
      rw [Nat.testBit_two_pow_self] at hj
      cases hj
    exact ⟨lor_pow_testBit_other _ _ _ hjk,
      andNot32_lor_pow_testBit_other _ _ _ hrange hk hjk⟩

theorem c9_ui (k : Nat) (hk : k < 32) (job : JobObject) (os : JobInfo)
    (hrange : os.UIRestrictions.UIRestrictionsClass < 2 ^ 32) :
    c9Body (Limit.uiRestriction (2 ^ k)) job os := by
  refine ⟨?_, ?_, ?_⟩
  · show decide (0 < (os.UIRestrictions.UIRestrictionsClass ||| 2 ^ k) &&& 2 ^ k) = true
    exact decide_eq_true (lor_pow_land_pos _ k)
  · show decide
        (0 < andNot32 (os.UIRestrictions.UIRestrictionsClass ||| 2 ^ k) (2 ^ k) &&& 2 ^ k)
        = false
    rw [andNot32_pow_land_eq_zero _ k hk]
    rfl
  · intro j hj
    simp only [limitFlagValue] at hj
    have hjk : j ≠ k := by
      intro e
      subst e
      rw [Nat.testBit_two_pow_self] at hj
      cases hj
    exact ⟨lor_pow_testBit_other _ _ _ hjk,
      andNot32_lor_pow_testBit_other _ _ _ hrange hk hjk⟩

/-- Claim C9: for every single boolean-flag limit (the six basic
extended-limit flags and the eight UI restrictions) and every prior state
whose flag field is a uint32 value, SetLimit followed by a query that reads
back the written block makes IsSet true; a subsequent ResetLimit followed by
such a query makes IsSet false; and both operations change only the limit's
own bit of the block's flag field. -/
theorem singleFlag_set_reset_roundtrip (L : Limit) (hL : L ∈ singleFlagLimits)
    (job : JobObject) (os : JobInfo) (hrange : limitFlagField L os < 2 ^ 32) :
    c9Body L job os := by
  fin_cases hL
  · exact c9_basic 11 (by norm_num) job os hrange
  · exact c9_basic 12 (by norm_num) job os hrange
  · exact c9_basic 10 (by norm_num) job os hrange
  · exact c9_basic 13 (by norm_num) job os hrange
  · exact c9_basic 6 (by norm_num) job os hrange
  · exact c9_basic 14 (by norm_num) job os hrange
  · exact c9_ui 6 (by norm_num) job os hrange
  · exact c9_ui 4 (by norm_num) job os hrange
  · exact c9_ui 7 (by norm_num) job os hrange
  · exact c9_ui 5 (by norm_num) job os hrange
  · exact c9_ui 0 (by norm_num) job os hrange
  · exact c9_ui 1 (by norm_num) job os hrange
  · exact c9_ui 3 (by norm_num) job os hrange
  · exact c9_ui 2 (by norm_num) job os hrange

/-- Witness for singleFlag_set_reset_roundtrip: the kill-on-close flag on an
all-zero job and OS state. -/
theorem singleFlag_set_reset_roundtrip_witness :
    c9Body LimitKillOnJobClose emptyJob JobInfo.zero :=
  singleFlag_set_reset_roundtrip LimitKillOnJobClose (by decide) emptyJob JobInfo.zero
    (by decide)

/-! Counting and trace lemmas for the round-trip claim. -/

theorem countOcc_append {α : Type} [DecidableEq α] (a : α) (l1 l2 : List α) :
    countOcc a (l1 ++ l2) = countOcc a l1 + countOcc a l2 := by
  induction l1 with
  | nil => simp [countOcc]
  | cons b l ih =>
      show (if b = a then 1 else 0) + countOcc a (l ++ l2)
        = (if b = a then 1 else 0) + countOcc a l + countOcc a l2
      rw [ih]
      omega

theorem countOcc_eq_zero_iff {α : Type} [DecidableEq α] (a : α) (l : List α) :
    countOcc a l = 0 ↔ a ∉ l := by
  induction l with
  | nil => simp [countOcc]
  | cons b l ih =>
      by_cases hb : b = a
      · subst hb
        simp [countOcc, ih]
      · simp [countOcc, hb, ih, Ne.symm hb]

theorem mem_newClasses (c : JobObjectInformationClass) (ls : List Limit) :
    ∀ seen, c ∈ newClasses seen ls ↔ (c ∈ ls.map resolveRequiredInfoClass ∧ c ∉ seen) := by
  induction ls with
  | nil =>
      intro seen
      simp [newClasses]
  | cons l ls ih =>
      intro seen
      by_cases h : resolveRequiredInfoClass l ∈ seen
      · rw [newClasses]
        simp only [h, if_true, ih seen, List.map_cons, List.mem_cons]
        constructor
        · rintro ⟨hm, hs⟩
          exact ⟨Or.inr hm, hs⟩
        · rintro ⟨he | hm, hs⟩
          · subst he
            exact absurd h hs
          · exact ⟨hm, hs⟩
      · rw [newClasses]
        simp only [h, if_false, List.mem_cons, ih (seen ++ [resolveRequiredInfoClass l]),
          List.map_cons, List.mem_append, List.mem_singleton]
        constructor
        · rintro (he | ⟨hm, hs⟩)
          · subst he
            exact ⟨Or.inl rfl, h⟩
          · constructor
            · exact Or.inr hm
            · intro hc
              exact hs (Or.inl hc)
        · rintro ⟨he | hm, hs⟩
          · exact Or.inl he
          · by_cases hcl : c = resolveRequiredInfoClass l
            · exact Or.inl hcl
            · refine Or.inr ⟨hm, ?_⟩
              intro hc
              rcases hc with hc | hc
              · exact hs hc
              · rcases hc with hc | hc
                · exact hcl hc
                · exact absurd hc (List.not_mem_nil c)

theorem countOcc_newClasses (c : JobObjectInformationClass) (ls : List Limit) :
    ∀ seen, countOcc c (newClasses seen ls) = if c ∈ newClasses seen ls then 1 else 0 := by
  induction ls with
  | nil =>
      intro seen
      simp [newClasses, countOcc]
  | cons l ls ih =>
      intro seen
      by_cases h : resolveRequiredInfoClass l ∈ seen
      · rw [newClasses]
        simp only [h, if_true]
        exact ih seen
      · rw [newClasses]
        simp only [h, if_false]
        by_cases he : resolveRequiredInfoClass l = c
        · subst he
          have hnot : resolveRequiredInfoClass l ∉
              newClasses (seen ++ [resolveRequiredInfoClass l]) ls := by
            rw [mem_newClasses]
            simp
          show (if resolveRequiredInfoClass l = resolveRequiredInfoClass l then 1 else 0)
              + countOcc (resolveRequiredInfoClass l)
                  (newClasses (seen ++ [resolveRequiredInfoClass l]) ls)
            = if resolveRequiredInfoClass l ∈ resolveRequiredInfoClass l ::
                newClasses (seen ++ [resolveRequiredInfoClass l]) ls then 1 else 0
          rw [if_pos rfl, (countOcc_eq_zero_iff _ _).mpr hnot]
          simp
        · show (if resolveRequiredInfoClass l = c then 1 else 0)
              + countOcc c (newClasses (seen ++ [resolveRequiredInfoClass l]) ls)
            = if c ∈ resolveRequiredInfoClass l ::
                newClasses (seen ++ [resolveRequiredInfoClass l]) ls then 1 else 0
          rw [if_neg he, ih (seen ++ [resolveRequiredInfoClass l])]
          have hne : ¬ c = resolveRequiredInfoClass l := fun hc => he hc.symm
          simp [List.mem_cons, hne]

theorem mergesCoveredB_mono (tr : List SyncEvent) :
    ∀ q1 q2 : List JobObjectInformationClass, (∀ x, x ∈ q1 → x ∈ q2) →
      mergesCoveredB q1 tr = true → mergesCoveredB q2 tr = true := by
  induction tr with
  | nil => simp [mergesCoveredB]
  | cons e tr ih =>
      intro q1 q2 hsub
      cases e with
      | query c =>
          simp only [mergesCoveredB]
          refine ih _ _ ?_
          intro x hx
          rcases List.mem_cons.mp hx with hx | hx
          · exact hx ▸ List.mem_cons_self _ _
          · exact List.mem_cons_of_mem _ (hsub x hx)
      | merge c =>
          simp only [mergesCoveredB, Bool.and_eq_true, decide_eq_true_eq]
          rintro ⟨hc, hrest⟩
          exact ⟨hsub c hc, ih _ _ hsub hrest⟩
      | setInfo c =>
          simp only [mergesCoveredB]
          exact ih _ _ hsub

theorem mergesCoveredB_map_setInfo (cs : List JobObjectInformationClass) :
    ∀ q, mergesCoveredB q (cs.map SyncEvent.setInfo) = true := by
  induction cs with
  | nil =>
      intro q
      simp [mergesCoveredB]
  | cons c cs ih =>
      intro q
      simpa [mergesCoveredB] using ih q

theorem mergesCoveredB_append (tr1 : List SyncEvent) :
    ∀ (q : List JobObjectInformationClass) (tr2 : List SyncEvent),
      mergesCoveredB q tr1 = true → (∀ q', mergesCoveredB q' tr2 = true) →
      mergesCoveredB q (tr1 ++ tr2) = true := by
  induction tr1 with
  | nil =>
      intro q tr2 _ h2
      simpa using h2 q
  | cons e tr ih =>
      intro q tr2 h1 h2
      cases e with
      | query c =>
          simp only [List.cons_append, mergesCoveredB] at h1 ⊢
          exact ih _ _ h1 h2
      | merge c =>
          simp only [List.cons_append, mergesCoveredB, Bool.and_eq_true] at h1 ⊢
          exact ⟨h1.1, ih _ _ h1.2 h2⟩
      | setInfo c =>
          simp only [List.cons_append, mergesCoveredB] at h1 ⊢
          exact ih _ _ h1 h2

theorem countOcc_query_map_setInfo (c : JobObjectInformationClass)
    (cs : List JobObjectInformationClass) :
    countOcc (SyncEvent.query c) (cs.map SyncEvent.setInfo) = 0 := by
  induction cs with
  | nil => simp [countOcc]
  | cons c0 cs ih => simp [countOcc, ih]

theorem countOcc_setInfo_map_setInfo (c : JobObjectInformationClass)
    (cs : List JobObjectInformationClass) :
    countOcc (SyncEvent.setInfo c) (cs.map SyncEvent.setInfo) = countOcc c cs := by
  induction cs with
  | nil => simp [countOcc]
  | cons c0 cs ih =>
      show (if SyncEvent.setInfo c0 = SyncEvent.setInfo c then 1 else 0)
          + countOcc (SyncEvent.setInfo c) (cs.map SyncEvent.setInfo)
        = (if c0 = c then 1 else 0) + countOcc c cs
      rw [ih]
      simp

/-- Loop invariant of applyLimit: starting from an already-queried class list
`seen`, the loop returns `seen` extended by the new classes in first-seen
order, its trace holds one query per new class and no write-back, and every
merge is into a class queried earlier in the trace (or already in `seen`). -/
theorem applyLoop_spec (set : Bool) (os : JobInfo) (ls : List Limit) :
    ∀ (job : JobObject) (seen : List JobObjectInformationClass),
      (applyLoop set os ls job seen).2.1 = seen ++ newClasses seen ls
      ∧ (∀ c, countOcc (SyncEvent.query c) (applyLoop set os ls job seen).2.2
            = countOcc c (newClasses seen ls))
      ∧ (∀ c, countOcc (SyncEvent.setInfo c) (applyLoop set os ls job seen).2.2 = 0)
      ∧ mergesCoveredB seen (applyLoop set os ls job seen).2.2 = true := by
  induction ls with
  | nil =>
      intro job seen
      simp [applyLoop, newClasses, countOcc, mergesCoveredB]
  | cons l ls ih =>
      intro job seen
      by_cases h : resolveRequiredInfoClass l ∈ seen
      · have hloop : applyLoop set os (l :: ls) job seen
            = ((applyLoop set os ls (if set then l.set job else l.reset job) seen).1,
                (applyLoop set os ls (if set then l.set job else l.reset job) seen).2.1,
                SyncEvent.merge (resolveRequiredInfoClass l)
                  :: (applyLoop set os ls (if set then l.set job else l.reset job) seen).2.2) := by
          simp [applyLoop, h]
        have hnew : newClasses seen (l :: ls) = newClasses seen ls := by
          rw [newClasses]
          simp [h]
        have hrec := ih (if set then l.set job else l.reset job) seen
        rw [hloop, hnew]
        refine ⟨hrec.1, ?_, ?_, ?_⟩
        · intro c
          show (if SyncEvent.merge (resolveRequiredInfoClass l) = SyncEvent.query c then 1 else 0)
              + countOcc (SyncEvent.query c)
                  (applyLoop set os ls (if set then l.set job else l.reset job) seen).2.2
            = countOcc c (newClasses seen ls)
          rw [hrec.2.1 c]
          simp
        · intro c
          show (if SyncEvent.merge (resolveRequiredInfoClass l) = SyncEvent.setInfo c then 1 else 0)
              + countOcc (SyncEvent.setInfo c)
                  (applyLoop set os ls (if set then l.set job else l.reset job) seen).2.2 = 0
          rw [hrec.2.2.1 c]
          simp
        · show mergesCoveredB seen (SyncEvent.merge (resolveRequiredInfoClass l) :: _) = true
          simp only [mergesCoveredB, Bool.and_eq_true, decide_eq_true_eq]
          exact ⟨h, hrec.2.2.2⟩
      · have hloop : applyLoop set os (l :: ls) job seen
            = ((applyLoop set os ls
                  (if set then l.set (job.queryInfo os (resolveRequiredInfoClass l))
                    else l.reset (job.queryInfo os (resolveRequiredInfoClass l)))
                  (seen ++ [resolveRequiredInfoClass l])).1,
                (applyLoop set os ls
                  (if set then l.set (job.queryInfo os (resolveRequiredInfoClass l))
                    else l.reset (job.queryInfo os (resolveRequiredInfoClass l)))
                  (seen ++ [resolveRequiredInfoClass l])).2.1,
                SyncEvent.query (resolveRequiredInfoClass l)
                  :: SyncEvent.merge (resolveRequiredInfoClass l)
                  :: (applyLoop set os ls
                      (if set then l.set (job.queryInfo os (resolveRequiredInfoClass l))
                        else l.reset (job.queryInfo os (resolveRequiredInfoClass l)))
                      (seen ++ [resolveRequiredInfoClass l])).2.2) := by
          simp [applyLoop, h]
        have hnew : newClasses seen (l :: ls)
            = resolveRequiredInfoClass l
              :: newClasses (seen ++ [resolveRequiredInfoClass l]) ls := by
          rw [newClasses]
          simp [h]
        have hrec := ih
          (if set then l.set (job.queryInfo os (resolveRequiredInfoClass l))
            else l.reset (job.queryInfo os (resolveRequiredInfoClass l)))
          (seen ++ [resolveRequiredInfoClass l])
        rw [hloop, hnew]
        refine ⟨?_, ?_, ?_, ?_⟩
        · show (applyLoop set os ls _ (seen ++ [resolveRequiredInfoClass l])).2.1
            = seen ++ resolveRequiredInfoClass l
                :: newClasses (seen ++ [resolveRequiredInfoClass l]) ls
          rw [hrec.1, List.append_assoc]
          rfl
        · intro c
          show (if SyncEvent.query (resolveRequiredInfoClass l) = SyncEvent.query c then 1 else 0)
              + ((if SyncEvent.merge (resolveRequiredInfoClass l) = SyncEvent.query c
                    then 1 else 0)
                + countOcc (SyncEvent.query c) (applyLoop set os ls _ _).2.2)
            = (if resolveRequiredInfoClass l = c then 1 else 0)
              + countOcc c (newClasses (seen ++ [resolveRequiredInfoClass l]) ls)
          rw [hrec.2.1 c]
          simp
        · intro c
          show (if SyncEvent.query (resolveRequiredInfoClass l) = SyncEvent.setInfo c
                then 1 else 0)
              + ((if SyncEvent.merge (resolveRequiredInfoClass l) = SyncEvent.setInfo c
                    then 1 else 0)
                + countOcc (SyncEvent.setInfo c) (applyLoop set os ls _ _).2.2) = 0
          rw [hrec.2.2.1 c]
          simp
        · show mergesCoveredB seen
              (SyncEvent.query (resolveRequiredInfoClass l)
                :: SyncEvent.merge (resolveRequiredInfoClass l) :: _) = true
          simp only [mergesCoveredB, Bool.and_eq_true, decide_eq_true_eq]
          refine ⟨List.mem_cons_self _ _, ?_⟩
          refine mergesCoveredB_mono _ _ _ ?_ hrec.2.2.2
          intro x hx
          rcases List.mem_append.mp hx with hx | hx
          · exact List.mem_cons_of_mem _ hx
          · rcases List.mem_singleton.mp hx with rfl
            exact List.mem_cons_self _ _

/-- Claim C1: every applyLimit call (SetLimit is applyLimit with set = true,
ResetLimit with set = false) over N limits targeting M distinct info blocks
issues exactly one query per distinct targeted block (count 1 for targeted
classes, 0 otherwise), every merge into a block comes after a query of that
block within the call, exactly one write-back per distinct targeted block is
issued, and all write-backs come after all merges (the trace splits into a
write-back-free prefix and an all-write-back suffix); a call with zero limits
performs no OS interaction at all and leaves the cache and the OS state
unchanged (the Go function then returns nil, as no fallible call is made). -/
theorem applyLimit_round_trips (os : JobInfo) (set : Bool) (limits : List Limit)
    (job : JobObject) :
    (∀ c, countOcc (SyncEvent.query c) (applyLimit os set limits job).2.2
        = if c ∈ limits.map resolveRequiredInfoClass then 1 else 0)
    ∧ (∀ c, countOcc (SyncEvent.setInfo c) (applyLimit os set limits job).2.2
        = if c ∈ limits.map resolveRequiredInfoClass then 1 else 0)
    ∧ mergesCoveredB [] (applyLimit os set limits job).2.2 = true
    ∧ (∃ tr1 tr2, (applyLimit os set limits job).2.2 = tr1 ++ tr2
        ∧ (∀ c, SyncEvent.setInfo c ∉ tr1)
        ∧ (∀ e ∈ tr2, ∃ c, e = SyncEvent.setInfo c))
    ∧ applyLimit os set [] job = (job, os, []) := by
  have hspec := applyLoop_spec set os limits job []
  have hseen : (applyLoop set os limits job []).2.1 = newClasses [] limits := by
    simpa using hspec.1
  have htrace : (applyLimit os set limits job).2.2
      = (applyLoop set os limits job []).2.2
        ++ (applyLoop set os limits job []).2.1.map SyncEvent.setInfo := rfl
  have hmem : ∀ c, c ∈ newClasses [] limits ↔ c ∈ limits.map resolveRequiredInfoClass := by
    intro c
    rw [mem_newClasses]
    simp
  refine ⟨?_, ?_, ?_, ?_, rfl⟩
  · intro c
    rw [htrace, countOcc_append, hseen, countOcc_query_map_setInfo, hspec.2.1 c,
      countOcc_newClasses c limits []]
    simp [hmem c]
  · intro c
    rw [htrace, countOcc_append, hseen, countOcc_setInfo_map_setInfo, hspec.2.2.1 c,
      countOcc_newClasses c limits []]
    simp [hmem c]
  · rw [htrace]
    exact mergesCoveredB_append _ _ _ hspec.2.2.2 (fun q => mergesCoveredB_map_setInfo _ q)
  · refine ⟨(applyLoop set os limits job []).2.2,
      (applyLoop set os limits job []).2.1.map SyncEvent.setInfo, htrace, ?_, ?_⟩
    · intro c
      rw [← countOcc_eq_zero_iff]
      exact hspec.2.2.1 c
    · intro e he
      rcases List.mem_map.mp he with ⟨c, _, rfl⟩
      exact ⟨c, rfl⟩

/-- Three limits touching two distinct info blocks, for the round-trip
witness. -/
def c1WitnessLimits : List Limit := [LimitBreakawayOK, LimitDesktop, LimitKillOnJobClose]

/-- Witness for applyLimit_round_trips at three limits over two blocks. -/
theorem applyLimit_round_trips_witness :
    countOcc (SyncEvent.query JobObjectInformationClass.JobObjectExtendedLimitInformation)
        (applyLimit JobInfo.zero true c1WitnessLimits emptyJob).2.2 = 1
    ∧ countOcc (SyncEvent.setInfo JobObjectInformationClass.JobObjectExtendedLimitInformation)
        (applyLimit JobInfo.zero true c1WitnessLimits emptyJob).2.2 = 1
    ∧ mergesCoveredB [] (applyLimit JobInfo.zero true c1WitnessLimits emptyJob).2.2 = true
    ∧ applyLimit JobInfo.zero true ([] : List Limit) emptyJob
        = (emptyJob, JobInfo.zero, []) :=
  ⟨((applyLimit_round_trips JobInfo.zero true c1WitnessLimits emptyJob).1 _).trans (by decide),
    ((applyLimit_round_trips JobInfo.zero true c1WitnessLimits emptyJob).2.1 _).trans
      (by decide),
    (applyLimit_round_trips JobInfo.zero true c1WitnessLimits emptyJob).2.2.1,
    (applyLimit_round_trips JobInfo.zero true c1WitnessLimits emptyJob).2.2.2.2⟩

end Winjob
